import Mathlib

/-!
A shallow embedding of `dev/breeze/src/airflow_breeze/utils/selective_checks.py`:
the selective-checks engine that decides, for one CI run, which test suites,
version matrices and build stages must execute, based on the changed files, the
triggering event and the pull-request labels.  The constants imported from
`airflow_breeze.global_constants` (version matrices, the event enum, the
test-type catalogue) are not part of the given source and are modelled from the
spec as parameters.
-/

namespace AirflowBreeze

/-! ## Python regular-expression matching, restricted to the fragment the tables use

Every pattern in the source's two tables is built from literals, `.`, character
classes `[..]` / `[^..]`, the quantifiers `*`, `+`, `?`, backslash-escaped
literals, and the `^` / `$` anchors.  `re.match` anchors the pattern at the
start of the string and accepts when any prefix matches, unless the pattern
ends with `$`, which forces the whole string to match.
-/

inductive CSet where
  | lit : Char → CSet
  | anyChar : CSet
  | oneOf : List Char → CSet
  | noneOf : List Char → CSet
deriving DecidableEq

/-- Character-set membership.  Python `.` matches every character except a newline. -/
def CSet.holds : CSet → Char → Bool
  | CSet.lit c, d => c == d
  | CSet.anyChar, d => d != '\n'
  | CSet.oneOf cs, d => cs.contains d
  | CSet.noneOf cs, d => !(cs.contains d)

inductive Quant where
  | one
  | star
  | plus
  | opt
deriving DecidableEq

structure Atom where
  set : CSet
  q : Quant
deriving DecidableEq

/-- Backtracking matcher: can `atoms` consume a prefix of `cs` (all of `cs` when
`anchorEnd` is set)?  The disjunctions realise the existential semantics of a
regex match; greediness is irrelevant to the Boolean answer.  Every recursive
call decreases `(cs.length, atoms.length)` lexicographically; the structural
fuel argument keeps the definition kernel-reducible and is supplied generously
by `matchAtoms` below. -/
def matchAtomsFuel : Nat → List Atom → List Char → Bool → Bool
  | 0, _, _, _ => false
  | _ + 1, [], cs, anchorEnd => if anchorEnd then cs.isEmpty else true
  | fuel + 1, a :: restAtoms, [], anchorEnd =>
    match a.q with
    | Quant.one => false
    | Quant.plus => false
    | Quant.star => matchAtomsFuel fuel restAtoms [] anchorEnd
    | Quant.opt => matchAtomsFuel fuel restAtoms [] anchorEnd
  | fuel + 1, a :: restAtoms, c :: restChars, anchorEnd =>
    match a.q with
    | Quant.one => a.set.holds c && matchAtomsFuel fuel restAtoms restChars anchorEnd
    | Quant.opt =>
      (a.set.holds c && matchAtomsFuel fuel restAtoms restChars anchorEnd)
        || matchAtomsFuel fuel restAtoms (c :: restChars) anchorEnd
    | Quant.plus =>
      a.set.holds c
        && matchAtomsFuel fuel (⟨a.set, Quant.star⟩ :: restAtoms) restChars anchorEnd
    | Quant.star =>
      (a.set.holds c
          && matchAtomsFuel fuel (⟨a.set, Quant.star⟩ :: restAtoms) restChars anchorEnd)
        || matchAtomsFuel fuel restAtoms (c :: restChars) anchorEnd

/-- The matcher with enough fuel for any lexicographic descent on
`(cs.length, atoms.length)`. -/
def matchAtoms (atoms : List Atom) (cs : List Char) (anchorEnd : Bool) : Bool :=
  matchAtomsFuel ((cs.length + 1) * (atoms.length + 1) + 1) atoms cs anchorEnd

/-- Attach the Python quantifier that optionally follows an atom. -/
def quantAndRest : List Char → Quant × List Char
  | '*' :: r => (Quant.star, r)
  | '+' :: r => (Quant.plus, r)
  | '?' :: r => (Quant.opt, r)
  | r => (Quant.one, r)

/-- Read a character-class body up to the closing bracket. -/
def parseClassBody : List Char → Option (List Char × List Char)
  | [] => none
  | ']' :: r => some ([], r)
  | c :: r => (parseClassBody r).map (fun p => (c :: p.1, p.2))

/-- Fuel-driven parser for the regex fragment used by the pattern tables.
Returns the atom list and whether the pattern ends with the `$` anchor. -/
def parseAtoms : Nat → List Char → Option (List Atom × Bool)
  | 0, _ => none
  | _, [] => some ([], false)
  | _ + 1, ['$'] => some ([], true)
  | fuel + 1, '\\' :: c :: r =>
    let qr := quantAndRest r
    (parseAtoms fuel qr.2).map (fun p => (⟨CSet.lit c, qr.1⟩ :: p.1, p.2))
  | fuel + 1, '[' :: '^' :: r =>
    match parseClassBody r with
    | none => none
    | some body =>
      let qr := quantAndRest body.2
      (parseAtoms fuel qr.2).map (fun p => (⟨CSet.noneOf body.1, qr.1⟩ :: p.1, p.2))
  | fuel + 1, '[' :: r =>
    match parseClassBody r with
    | none => none
    | some body =>
      let qr := quantAndRest body.2
      (parseAtoms fuel qr.2).map (fun p => (⟨CSet.oneOf body.1, qr.1⟩ :: p.1, p.2))
  | fuel + 1, '.' :: r =>
    let qr := quantAndRest r
    (parseAtoms fuel qr.2).map (fun p => (⟨CSet.anyChar, qr.1⟩ :: p.1, p.2))
  | fuel + 1, c :: r =>
    let qr := quantAndRest r
    (parseAtoms fuel qr.2).map (fun p => (⟨CSet.lit c, qr.1⟩ :: p.1, p.2))

/-- Python `re.match(regexp, file)` as a Bool.  A leading `^` is redundant under
`re.match` (which is start-anchored) and is dropped before parsing.  A pattern
outside the fragment would fail to parse and match nothing; every pattern in
the source's tables parses. -/
def pyMatch (regexp file : String) : Bool :=
  let l :=
    match regexp.toList with
    | '^' :: r => r
    | r => r
  match parseAtoms (l.length + 1) l with
  | some p => matchAtoms p.1 file.toList p.2
  | none => false

/-! ## The pattern tables of the source, verbatim -/

inductive FileGroupForCi where
  | ENVIRONMENT_FILES
  | PYTHON_PRODUCTION_FILES
  | JAVASCRIPT_PRODUCTION_FILES
  | API_TEST_FILES
  | API_CODEGEN_FILES
  | HELM_FILES
  | SETUP_FILES
  | DOC_FILES
  | UI_FILES
  | WWW_FILES
  | KUBERNETES_FILES
  | ALL_PYTHON_FILES
  | ALL_SOURCE_FILES
deriving DecidableEq

/-- `CI_FILE_GROUP_MATCHES`: the regex strings exactly as in the source (Python
raw strings; the backslashes are escaped for Lean). -/
def CI_FILE_GROUP_MATCHES : FileGroupForCi → List String
  | FileGroupForCi.ENVIRONMENT_FILES =>
    ["^.github/workflows", "^dev/breeze", "^Dockerfile", "^scripts", "^setup.py", "^setup.cfg"]
  | FileGroupForCi.PYTHON_PRODUCTION_FILES =>
    ["^airflow/.*\\.py", "^setup.py"]
  | FileGroupForCi.JAVASCRIPT_PRODUCTION_FILES =>
    ["^airflow/.*\\.[jt]sx?", "^airflow/.*\\.lock"]
  | FileGroupForCi.API_TEST_FILES =>
    ["^airflow/api"]
  | FileGroupForCi.API_CODEGEN_FILES =>
    ["^airflow/api_connexion/openapi/v1.yaml", "^clients/gen"]
  | FileGroupForCi.HELM_FILES =>
    ["^chart"]
  | FileGroupForCi.SETUP_FILES =>
    ["^pyproject.toml", "^setup.cfg", "^setup.py"]
  | FileGroupForCi.DOC_FILES =>
    ["^docs", "^airflow/.*\\.py$", "^chart", "^providers", "^CHANGELOG\\.txt",
      "^airflow/config_templates/config\\.yml", "^chart/RELEASE_NOTES\\.txt",
      "^chart/values\\.schema\\.json", "^chart/values\\.json"]
  | FileGroupForCi.UI_FILES =>
    ["^airflow/ui/.*\\.[tj]sx?$", "^airflow/ui/[^/]+\\.json$", "^airflow/ui/.*\\.lock$"]
  | FileGroupForCi.WWW_FILES =>
    ["^airflow/www/.*\\.js[x]?$", "^airflow/www/[^/]+\\.json$", "^airflow/www/.*\\.lock$"]
  | FileGroupForCi.KUBERNETES_FILES =>
    ["^chart", "^kubernetes_tests", "^airflow/providers/cncf/kubernetes/",
      "^tests/providers/cncf/kubernetes/"]
  | FileGroupForCi.ALL_PYTHON_FILES =>
    ["\\.py$"]
  | FileGroupForCi.ALL_SOURCE_FILES =>
    ["^.pre-commit-config.yaml$", "^airflow", "^chart", "^tests", "^kubernetes_tests"]

/-- Modelled from the spec: `SelectiveUnitTestTypes` lives in
`airflow_breeze.global_constants`, outside the given source.  The spec names the
test categories API, CLI, Providers, WWW, and the source's `TEST_TYPE_MATCHES`
table keys and its string literals ("Providers", "Always") fix the member
values used here. -/
inductive SelectiveUnitTestTypes where
  | API
  | CLI
  | PROVIDERS
  | WWW
deriving DecidableEq

/-- The `.value` of each enum member, as joined into `test_types` output. -/
def SelectiveUnitTestTypes.value : SelectiveUnitTestTypes → String
  | SelectiveUnitTestTypes.API => "API"
  | SelectiveUnitTestTypes.CLI => "CLI"
  | SelectiveUnitTestTypes.PROVIDERS => "Providers"
  | SelectiveUnitTestTypes.WWW => "WWW"

/-- `TEST_TYPE_MATCHES`, verbatim from the source. -/
def TEST_TYPE_MATCHES : SelectiveUnitTestTypes → List String
  | SelectiveUnitTestTypes.API =>
    ["^airflow/api", "^airflow/api_connexion", "^tests/api", "^tests/api_connexion"]
  | SelectiveUnitTestTypes.CLI =>
    ["^airflow/cli", "^tests/cli"]
  | SelectiveUnitTestTypes.PROVIDERS =>
    ["^airflow/providers/", "^tests/providers/"]
  | SelectiveUnitTestTypes.WWW =>
    ["^airflow/www", "^tests/www", "^airflow/ui"]

/-! ## Run context and external constants -/

/-- Modelled from the spec: the triggering event kinds, from `GithubEvents` in
`airflow_breeze.global_constants`, outside the given source: "triggering event
kind (enum: push, schedule, pull_request, pull_request_target, etc.)". -/
inductive GithubEvents where
  | PUSH
  | SCHEDULE
  | PULL_REQUEST
  | PULL_REQUEST_TARGET
deriving DecidableEq

/-- The constructor arguments of `SelectiveChecks.__init__`: the immutable run
context. -/
structure SelectiveChecks where
  files : List String := []
  default_branch : String := "main"
  commit_ref : Option String := none
  pr_labels : List String := []
  github_event : GithubEvents := GithubEvents.PULL_REQUEST
deriving DecidableEq

/-- Modelled from the spec: the "source-of-truth version-matrix constants" and
the fixed test-type catalogue (`all_selective_test_types`) live in
`airflow_breeze.global_constants`, which the spec places out of scope; the
decision engine is therefore parametrised by them. -/
structure GlobalConstants where
  CURRENT_PYTHON_MAJOR_MINOR_VERSIONS : List String
  ALL_PYTHON_MAJOR_MINOR_VERSIONS : List String
  DEFAULT_PYTHON_MAJOR_MINOR_VERSION : String
  CURRENT_POSTGRES_VERSIONS : List String
  DEFAULT_POSTGRES_VERSION : String
  CURRENT_MYSQL_VERSIONS : List String
  DEFAULT_MYSQL_VERSION : String
  CURRENT_MSSQL_VERSIONS : List String
  DEFAULT_MSSQL_VERSION : String
  CURRENT_KUBERNETES_VERSIONS : List String
  DEFAULT_KUBERNETES_VERSION : String
  CURRENT_KIND_VERSIONS : List String
  DEFAULT_KIND_VERSION : String
  CURRENT_HELM_VERSIONS : List String
  DEFAULT_HELM_VERSION : String
  all_selective_test_types : List String

/-- `FULL_TESTS_NEEDED_LABEL = "full tests needed"`. -/
def FULL_TESTS_NEEDED_LABEL : String := "full tests needed"

/-! ## File classification -/

/-- Inner loop of `_match_files_with_regexps`: try the group's regexps in order
and stop at the first match (the `break`). -/
def matchesSomeRegexp : List String → String → Bool
  | [], _ => false
  | regexp :: rest, file => if pyMatch regexp file then true else matchesSomeRegexp rest file

/-- `_match_files_with_regexps(matched_files, regexps)`: append, in order, every
file of the run context that matches some regexp of the group. -/
def match_files_with_regexps : List String → List String → List String → List String
  | matched_files, [], _ => matched_files
  | matched_files, file :: rest, regexps =>
    if matchesSomeRegexp regexps file then
      match_files_with_regexps (matched_files ++ [file]) rest regexps
    else
      match_files_with_regexps matched_files rest regexps

/-- `_matching_files(match_group, CI_FILE_GROUP_MATCHES)`. -/
def SelectiveChecks.matching_files (sc : SelectiveChecks) (match_group : FileGroupForCi) : List String :=
  match_files_with_regexps [] sc.files (CI_FILE_GROUP_MATCHES match_group)

/-- `_matching_files(match_group, TEST_TYPE_MATCHES)`. -/
def SelectiveChecks.matching_test_files (sc : SelectiveChecks) (match_group : SelectiveUnitTestTypes) : List String :=
  match_files_with_regexps [] sc.files (TEST_TYPE_MATCHES match_group)

/-! ## The decision engine -/

/-- `_full_tests_needed`: the event is push or schedule, or the designated label
is present. -/
def full_tests_needed (sc : SelectiveChecks) : Bool :=
  if [GithubEvents.PUSH, GithubEvents.SCHEDULE].contains sc.github_event then true
  else if sc.pr_labels.contains FULL_TESTS_NEEDED_LABEL then true
  else false

/-- Python truthiness of the commit reference in `if not self._commit_ref:`:
`None` and the empty string are falsy. -/
def commitRefFalsy : Option String → Bool
  | none => true
  | some s => s == ""

/-- `_run_everything`. -/
def run_everything (sc : SelectiveChecks) : Bool :=
  if commitRefFalsy sc.commit_ref then true
  else if full_tests_needed sc then true
  else if (sc.matching_files FileGroupForCi.ENVIRONMENT_FILES).length > 0 then true
  else false

/-- `_should_be_run(source_area)`. -/
def should_be_run (sc : SelectiveChecks) (source_area : FileGroupForCi) : Bool :=
  if run_everything sc then true
  else if (sc.matching_files source_area).length > 0 then true
  else false

def needs_python_scans (sc : SelectiveChecks) : Bool :=
  should_be_run sc FileGroupForCi.PYTHON_PRODUCTION_FILES

def needs_javascript_scans (sc : SelectiveChecks) : Bool :=
  should_be_run sc FileGroupForCi.JAVASCRIPT_PRODUCTION_FILES

def needs_api_tests (sc : SelectiveChecks) : Bool :=
  should_be_run sc FileGroupForCi.API_TEST_FILES

def needs_api_codegen (sc : SelectiveChecks) : Bool :=
  should_be_run sc FileGroupForCi.API_CODEGEN_FILES

def run_ui_tests (sc : SelectiveChecks) : Bool :=
  should_be_run sc FileGroupForCi.UI_FILES

def run_www_tests (sc : SelectiveChecks) : Bool :=
  should_be_run sc FileGroupForCi.WWW_FILES

def run_kubernetes_tests (sc : SelectiveChecks) : Bool :=
  should_be_run sc FileGroupForCi.KUBERNETES_FILES

def docs_build (sc : SelectiveChecks) : Bool :=
  should_be_run sc FileGroupForCi.DOC_FILES

def needs_helm_tests (sc : SelectiveChecks) : Bool :=
  should_be_run sc FileGroupForCi.HELM_FILES && sc.default_branch == "main"

def run_tests (sc : SelectiveChecks) : Bool :=
  should_be_run sc FileGroupForCi.ALL_SOURCE_FILES

def image_build (sc : SelectiveChecks) : Bool :=
  run_tests sc || docs_build sc || run_kubernetes_tests sc

def basic_checks_only (sc : SelectiveChecks) : Bool :=
  !image_build sc

/-! ## Version matrices -/

def python_versions (c : GlobalConstants) (sc : SelectiveChecks) : List String :=
  if full_tests_needed sc then c.CURRENT_PYTHON_MAJOR_MINOR_VERSIONS
  else [c.DEFAULT_PYTHON_MAJOR_MINOR_VERSION]

def all_python_versions (c : GlobalConstants) (sc : SelectiveChecks) : List String :=
  if run_everything sc || full_tests_needed sc then c.ALL_PYTHON_MAJOR_MINOR_VERSIONS
  else [c.DEFAULT_PYTHON_MAJOR_MINOR_VERSION]

def postgres_versions (c : GlobalConstants) (sc : SelectiveChecks) : List String :=
  if full_tests_needed sc then c.CURRENT_POSTGRES_VERSIONS else [c.DEFAULT_POSTGRES_VERSION]

def mysql_versions (c : GlobalConstants) (sc : SelectiveChecks) : List String :=
  if full_tests_needed sc then c.CURRENT_MYSQL_VERSIONS else [c.DEFAULT_MYSQL_VERSION]

def mssql_versions (c : GlobalConstants) (sc : SelectiveChecks) : List String :=
  if full_tests_needed sc then c.CURRENT_MSSQL_VERSIONS else [c.DEFAULT_MSSQL_VERSION]

/-- `kind_versions` returns `CURRENT_KIND_VERSIONS` unconditionally in the source. -/
def kind_versions (c : GlobalConstants) (_sc : SelectiveChecks) : List String :=
  c.CURRENT_KIND_VERSIONS

/-- `helm_versions` returns `CURRENT_HELM_VERSIONS` unconditionally in the source. -/
def helm_versions (c : GlobalConstants) (_sc : SelectiveChecks) : List String :=
  c.CURRENT_HELM_VERSIONS

def kubernetes_versions (c : GlobalConstants) (sc : SelectiveChecks) : List String :=
  if full_tests_needed sc then c.CURRENT_KUBERNETES_VERSIONS else [c.DEFAULT_KUBERNETES_VERSION]

/-! ## Test types -/

/-- Adding an element to a Python `set` represented as a duplicate-free list:
a no-op when the element is already present. -/
def insertSet (s : List String) (x : String) : List String :=
  if x ∈ s then s else s ++ [x]

/-- Lexicographic comparison of char lists by code point, the order Python's
`sorted` uses on strings. -/
def lexLe : List Char → List Char → Bool
  | [], _ => true
  | _ :: _, [] => false
  | c :: cs, d :: ds =>
    if c.toNat < d.toNat then true
    else if d.toNat < c.toNat then false
    else lexLe cs ds

def pyStringLe (a b : String) : Bool := lexLe a.toList b.toList

/-- Python `sorted` on a list of strings. -/
def pySorted (l : List String) : List String :=
  List.insertionSort (fun a b => pyStringLe a b = true) l

/-- `_select_test_type_if_matching(test_types, test_type)`: add the type's value
to the candidate set when its patterns match at least one changed file; return
the updated set together with the matched files. -/
def select_test_type_if_matching (sc : SelectiveChecks) (test_types : List String)
    (test_type : SelectiveUnitTestTypes) : List String × List String :=
  let matched_files := sc.matching_test_files test_type
  if matched_files.length > 0 then (insertSet test_types test_type.value, matched_files)
  else (test_types, matched_files)

/-- `_get_test_types_to_run`: the candidate set starts at {"Always"}; the four
groups are tried in the source's order WWW, PROVIDERS, CLI, API; `matched_files`
accumulates (as a set, here a list queried only for membership) every file a
group matched; any source file left unattributed and outside the Kubernetes
group pulls in the whole catalogue; the result is the sorted candidate list. -/
def get_test_types_to_run (c : GlobalConstants) (sc : SelectiveChecks) : List String :=
  let candidate0 : List String := ["Always"]
  let r1 := select_test_type_if_matching sc candidate0 SelectiveUnitTestTypes.WWW
  let r2 := select_test_type_if_matching sc r1.1 SelectiveUnitTestTypes.PROVIDERS
  let r3 := select_test_type_if_matching sc r2.1 SelectiveUnitTestTypes.CLI
  let r4 := select_test_type_if_matching sc r3.1 SelectiveUnitTestTypes.API
  let matched_files := r1.2 ++ r2.2 ++ r3.2 ++ r4.2
  let kubernetes_files := sc.matching_files FileGroupForCi.KUBERNETES_FILES
  let all_source_files := sc.matching_files FileGroupForCi.ALL_SOURCE_FILES
  let remaining_files :=
    (all_source_files.filter
      (fun f => !(matched_files.contains f) && !(kubernetes_files.contains f))).dedup
  let candidates :=
    if remaining_files.length > 0 then c.all_selective_test_types.foldl insertSet r4.1
    else r4.1
  pySorted candidates

/-- The branch of `test_types` choosing between the full catalogue and the
selective computation. -/
def current_test_types (c : GlobalConstants) (sc : SelectiveChecks) : List String :=
  if run_everything sc then c.all_selective_test_types else get_test_types_to_run c sc

/-- The `"Providers"` removal of `test_types`: when the default branch is not
"main" and "Providers" is present, the first occurrence is removed
(`list.remove`). -/
def branch_filtered_test_types (c : GlobalConstants) (sc : SelectiveChecks) : List String :=
  if sc.default_branch ≠ "main" then
    (if (current_test_types c sc).contains "Providers" then
      (current_test_types c sc).erase "Providers"
    else current_test_types c sc)
  else current_test_types c sc

/-- The sorted list whose space-join `test_types` returns (when the test gate
is open). -/
def test_types_list (c : GlobalConstants) (sc : SelectiveChecks) : List String :=
  pySorted (branch_filtered_test_types c sc)

/-- `test_types`. -/
def test_types (c : GlobalConstants) (sc : SelectiveChecks) : String :=
  if !run_tests sc then "" else " ".intercalate (test_types_list c sc)

def upgrade_to_newer_dependencies (sc : SelectiveChecks) : Bool :=
  (sc.matching_files FileGroupForCi.SETUP_FILES).length > 0
    || [GithubEvents.PUSH, GithubEvents.SCHEDULE].contains sc.github_event

/-! ## Output formatting -/

/-- The values `get_ga_output` receives: booleans or strings (already-joined
lists arrive as strings). -/
inductive PyValue where
  | bool : Bool → PyValue
  | str : String → PyValue

/-- Python `str` on a boolean. -/
def pyStrOfBool : Bool → String
  | true => "True"
  | false => "False"

/-- Python `str.lower()`: lower-case every character. -/
def pyLower (s : String) : String :=
  ⟨s.data.map Char.toLower⟩

/-- The `printed_value` of `get_ga_output`: `str(value).lower()` for a boolean,
the value itself otherwise. -/
def printed_value : PyValue → String
  | PyValue.bool b => pyLower (pyStrOfBool b)
  | PyValue.str s => s

/-- `get_ga_output(name, value)`: underscores of the name become dashes and the
`::set-output` line is returned. -/
def get_ga_output (name : String) (value : PyValue) : String :=
  "::set-output name=" ++ name.replace "_" "-" ++ "::" ++ printed_value value

/-! ## Statement-side definitions, written from the claims' words -/

/-- The four test-type groups in the order the claims list them. -/
def allTestTypeGroups : List SelectiveUnitTestTypes :=
  [SelectiveUnitTestTypes.API, SelectiveUnitTestTypes.CLI,
    SelectiveUnitTestTypes.PROVIDERS, SelectiveUnitTestTypes.WWW]

/-- Claim phrasing: a group's "patterns match at least one changed file". -/
def spec_group_matches (sc : SelectiveChecks) (t : SelectiveUnitTestTypes) : Bool :=
  sc.files.any (fun f => (TEST_TYPE_MATCHES t).any (fun regexp => pyMatch regexp f))

/-- Claim phrasing: "some changed file matching the broad source-file group is
neither attributed to a matched test-type group nor matches the Kubernetes file
group". -/
def spec_unattributed_file_exists (sc : SelectiveChecks) : Bool :=
  sc.files.any (fun f =>
    (CI_FILE_GROUP_MATCHES FileGroupForCi.ALL_SOURCE_FILES).any (fun regexp => pyMatch regexp f)
      && !(allTestTypeGroups.any
        (fun t => (TEST_TYPE_MATCHES t).any (fun regexp => pyMatch regexp f)))
      && !((CI_FILE_GROUP_MATCHES FileGroupForCi.KUBERNETES_FILES).any
        (fun regexp => pyMatch regexp f)))

/-- The set (as a duplicate-free list) built by the claim's construction:
start from {"Always"}, add each matching test-type group, and union in the full
catalogue exactly when an unattributed source file exists. -/
def spec_test_types_set (c : GlobalConstants) (sc : SelectiveChecks) : List String :=
  let base := ["Always"] ++
    (allTestTypeGroups.filter (fun t => spec_group_matches sc t)).map SelectiveUnitTestTypes.value
  (if spec_unattributed_file_exists sc then base ++ c.all_selective_test_types else base).dedup

/-- The claim C2 rendering of `test_types`, exactly as stated: the sorted,
space-joined claim-built set, with no branch-dependent removal. -/
def spec_test_types_as_stated (c : GlobalConstants) (sc : SelectiveChecks) : String :=
  " ".intercalate (pySorted (spec_test_types_set c sc))

/-- The amended rendering: as stated, except that "Providers" is removed from
the set when the default branch is not "main", before sorting and joining. -/
def spec_test_types_amended (c : GlobalConstants) (sc : SelectiveChecks) : String :=
  let s := spec_test_types_set c sc
  let s2 := if sc.default_branch ≠ "main" then s.filter (fun x => x ≠ "Providers") else s
  " ".intercalate (pySorted s2)

/-! ## Concrete inputs used by witnesses and counterexamples -/

/-- A concrete instantiation of the external constants, with multi-element
matrices so that gating is observable. -/
def cW : GlobalConstants :=
  { CURRENT_PYTHON_MAJOR_MINOR_VERSIONS := ["3.7", "3.8", "3.9", "3.10"]
    ALL_PYTHON_MAJOR_MINOR_VERSIONS := ["3.6", "3.7", "3.8", "3.9", "3.10"]
    DEFAULT_PYTHON_MAJOR_MINOR_VERSION := "3.7"
    CURRENT_POSTGRES_VERSIONS := ["10", "11", "12", "13"]
    DEFAULT_POSTGRES_VERSION := "10"
    CURRENT_MYSQL_VERSIONS := ["5.7", "8"]
    DEFAULT_MYSQL_VERSION := "5.7"
    CURRENT_MSSQL_VERSIONS := ["2017-latest", "2019-latest"]
    DEFAULT_MSSQL_VERSION := "2017-latest"
    CURRENT_KUBERNETES_VERSIONS := ["v1.23.6", "v1.24.2"]
    DEFAULT_KUBERNETES_VERSION := "v1.23.6"
    CURRENT_KIND_VERSIONS := ["v0.13.0", "v0.14.0"]
    DEFAULT_KIND_VERSION := "v0.14.0"
    CURRENT_HELM_VERSIONS := ["v3.6.3", "v3.9.2"]
    DEFAULT_HELM_VERSION := "v3.9.2"
    all_selective_test_types :=
      ["API", "Always", "CLI", "Core", "Integration", "Other", "Providers", "WWW"] }

/-- A pull-request run with a commit reference, no labels and no files. -/
def scQuiet : SelectiveChecks :=
  { files := []
    default_branch := "main"
    commit_ref := some "abc"
    pr_labels := []
    github_event := GithubEvents.PULL_REQUEST }

/-- A push run. -/
def scPush : SelectiveChecks :=
  { files := []
    default_branch := "main"
    commit_ref := some "abc"
    pr_labels := []
    github_event := GithubEvents.PUSH }

/-- A run whose commit reference is supplied but empty. -/
def scEmptyRef : SelectiveChecks :=
  { files := []
    default_branch := "main"
    commit_ref := some ""
    pr_labels := []
    github_event := GithubEvents.PULL_REQUEST }

/-- A run with no commit reference. -/
def scNoRef : SelectiveChecks :=
  { files := ["README.md"]
    default_branch := "main"
    commit_ref := none
    pr_labels := []
    github_event := GithubEvents.PULL_REQUEST }

/-- A pull request carrying the "full tests needed" label and no files. -/
def scLabelled : SelectiveChecks :=
  { files := []
    default_branch := "main"
    commit_ref := some "abc"
    pr_labels := ["full tests needed"]
    github_event := GithubEvents.PULL_REQUEST }

/-- The spec's scenario: `files = ["airflow/api/foo.py"]`, commit ref "abc",
no labels, a pull-request event, over a chosen default branch. -/
def scApi (branch : String) : SelectiveChecks :=
  { files := ["airflow/api/foo.py"]
    default_branch := branch
    commit_ref := some "abc"
    pr_labels := []
    github_event := GithubEvents.PULL_REQUEST }

/-- A provider-only change over a non-main default branch. -/
def scProv : SelectiveChecks :=
  { files := ["airflow/providers/foo/x.py"]
    default_branch := "v2-2-test"
    commit_ref := some "abc"
    pr_labels := []
    github_event := GithubEvents.PULL_REQUEST }

/-! ## Order infrastructure for `pySorted` -/

theorem lexLe_cons (c d : Char) (cs ds : List Char) :
    lexLe (c :: cs) (d :: ds) = true ↔
      (c.toNat < d.toNat ∨ (c.toNat = d.toNat ∧ lexLe cs ds = true)) := by
  simp only [lexLe]
  rcases Nat.lt_trichotomy c.toNat d.toNat with h | h | h
  · simp [h]
  · simp [h, Nat.lt_irrefl]
  · have h1 : ¬c.toNat < d.toNat := by omega
    have h2 : c.toNat ≠ d.toNat := by omega
    simp [h, h1, h2]

theorem lexLe_total (a b : List Char) : lexLe a b = true ∨ lexLe b a = true := by
  induction a generalizing b with
  | nil => left; rfl
  | cons c cs ih =>
    cases b with
    | nil => right; rfl
    | cons d ds =>
      rw [lexLe_cons, lexLe_cons]
      rcases Nat.lt_trichotomy c.toNat d.toNat with h | h | h
      · left; left; exact h
      · rcases ih ds with h2 | h2
        · left; right; exact ⟨h, h2⟩
        · right; right; exact ⟨h.symm, h2⟩
      · right; left; exact h

theorem lexLe_trans (a b c : List Char) (h1 : lexLe a b = true) (h2 : lexLe b c = true) :
    lexLe a c = true := by
  induction a generalizing b c with
  | nil => rfl
  | cons x xs ih =>
    cases b with
    | nil => simp [lexLe] at h1
    | cons y ys =>
      cases c with
      | nil => simp [lexLe] at h2
      | cons z zs =>
        rw [lexLe_cons] at h1 h2 ⊢
        rcases h1 with h1 | ⟨h1e, h1r⟩ <;> rcases h2 with h2 | ⟨h2e, h2r⟩
        · left; omega
        · left; omega
        · left; omega
        · right; exact ⟨by omega, ih ys zs h1r h2r⟩

theorem char_toNat_inj (c d : Char) (h : c.toNat = d.toNat) : c = d :=
  Char.ext (UInt32.ext h)

theorem lexLe_antisymm (a b : List Char) (h1 : lexLe a b = true) (h2 : lexLe b a = true) :
    a = b := by
  induction a generalizing b with
  | nil =>
    cases b with
    | nil => rfl
    | cons y ys => simp [lexLe] at h2
  | cons x xs ih =>
    cases b with
    | nil => simp [lexLe] at h1
    | cons y ys =>
      rw [lexLe_cons] at h1 h2
      rcases h1 with h1 | ⟨h1e, h1r⟩ <;> rcases h2 with h2 | ⟨h2e, h2r⟩
      · omega
      · omega
      · omega
      · rw [char_toNat_inj x y h1e, ih ys h1r h2r]

theorem string_toList_inj (a b : String) (h : a.toList = b.toList) : a = b := by
  cases a; cases b; simpa [String.toList] using congrArg String.mk h

instance : IsTotal String (fun a b => pyStringLe a b = true) :=
  ⟨fun a b => lexLe_total a.toList b.toList⟩

instance : IsTrans String (fun a b => pyStringLe a b = true) :=
  ⟨fun a b c => lexLe_trans a.toList b.toList c.toList⟩

instance : IsAntisymm String (fun a b => pyStringLe a b = true) :=
  ⟨fun a b h1 h2 => string_toList_inj a b (lexLe_antisymm a.toList b.toList h1 h2)⟩

theorem pySorted_eq_of_mem_iff (l₁ l₂ : List String) (h₁ : l₁.Nodup) (h₂ : l₂.Nodup)
    (hmem : ∀ x, x ∈ l₁ ↔ x ∈ l₂) : pySorted l₁ = pySorted l₂ := by
  have hp : List.Perm l₁ l₂ := (List.perm_ext_iff_of_nodup h₁ h₂).mpr hmem
  exact List.eq_of_perm_of_sorted
    (((List.perm_insertionSort _ l₁).trans hp).trans (List.perm_insertionSort _ l₂).symm)
    (List.sorted_insertionSort _ l₁) (List.sorted_insertionSort _ l₂)

theorem mem_pySorted (l : List String) (x : String) : x ∈ pySorted l ↔ x ∈ l :=
  (List.perm_insertionSort _ l).mem_iff

theorem nodup_pySorted (l : List String) (h : l.Nodup) : (pySorted l).Nodup :=
  (List.perm_insertionSort _ l).nodup_iff.mpr h

/-! ## Basic list facts -/

theorem filter_length_pos (l : List String) (p : String → Bool) :
    0 < (l.filter p).length ↔ l.any p = true := by
  rw [List.length_pos_iff_exists_mem, List.any_eq_true]
  constructor
  · rintro ⟨a, ha⟩
    rw [List.mem_filter] at ha
    exact ⟨a, ha.1, ha.2⟩
  · rintro ⟨a, ha, hp⟩
    exact ⟨a, List.mem_filter.mpr ⟨ha, hp⟩⟩

theorem dedup_length_pos (l : List String) : 0 < l.dedup.length ↔ 0 < l.length := by
  rw [List.length_pos, List.length_pos, Ne, Ne, List.dedup_eq_nil]

/-! ## The file classifier computes a filter -/

theorem matchesSomeRegexp_eq_any (rs : List String) (f : String) :
    matchesSomeRegexp rs f = rs.any (fun regexp => pyMatch regexp f) := by
  induction rs with
  | nil => rfl
  | cons r rest ih =>
    rw [List.any_cons, ← ih]
    show (if pyMatch r f = true then true else matchesSomeRegexp rest f)
      = (pyMatch r f || matchesSomeRegexp rest f)
    by_cases h : pyMatch r f = true <;> simp [h]

theorem match_files_with_regexps_acc (files acc : List String) (rs : List String) :
    match_files_with_regexps acc files rs = acc ++ files.filter (fun f => matchesSomeRegexp rs f) := by
  induction files generalizing acc with
  | nil => simp [match_files_with_regexps]
  | cons f rest ih =>
    unfold match_files_with_regexps
    rw [List.filter_cons]
    split <;> rename_i h <;> simp [h, ih]

theorem matching_files_eq_filter (sc : SelectiveChecks) (g : FileGroupForCi) :
    sc.matching_files g
      = sc.files.filter (fun f => (CI_FILE_GROUP_MATCHES g).any (fun regexp => pyMatch regexp f)) := by
  unfold SelectiveChecks.matching_files
  rw [match_files_with_regexps_acc]
  simp only [List.nil_append]
  congr 1
  funext f
  exact matchesSomeRegexp_eq_any _ f

theorem matching_test_files_eq_filter (sc : SelectiveChecks) (t : SelectiveUnitTestTypes) :
    sc.matching_test_files t
      = sc.files.filter (fun f => (TEST_TYPE_MATCHES t).any (fun regexp => pyMatch regexp f)) := by
  unfold SelectiveChecks.matching_test_files
  rw [match_files_with_regexps_acc]
  simp only [List.nil_append]
  congr 1
  funext f
  exact matchesSomeRegexp_eq_any _ f

theorem mem_matching_files (sc : SelectiveChecks) (g : FileGroupForCi) (f : String) :
    f ∈ sc.matching_files g ↔
      f ∈ sc.files ∧ (CI_FILE_GROUP_MATCHES g).any (fun regexp => pyMatch regexp f) = true := by
  rw [matching_files_eq_filter, List.mem_filter]

theorem mem_matching_test_files (sc : SelectiveChecks) (t : SelectiveUnitTestTypes) (f : String) :
    f ∈ sc.matching_test_files t ↔
      f ∈ sc.files ∧ (TEST_TYPE_MATCHES t).any (fun regexp => pyMatch regexp f) = true := by
  rw [matching_test_files_eq_filter, List.mem_filter]

theorem matching_test_files_length_pos (sc : SelectiveChecks) (t : SelectiveUnitTestTypes) :
    0 < (sc.matching_test_files t).length ↔ spec_group_matches sc t = true := by
  rw [matching_test_files_eq_filter, filter_length_pos]
  rfl

theorem matching_files_empty (sc : SelectiveChecks) (g : FileGroupForCi) (h : sc.files = []) :
    sc.matching_files g = [] := by
  rw [matching_files_eq_filter, h]
  rfl

/-! ## Set-as-list operations -/

theorem mem_insertSet (s : List String) (y x : String) :
    x ∈ insertSet s y ↔ x ∈ s ∨ x = y := by
  unfold insertSet
  split <;> rename_i h
  · constructor
    · exact fun hx => Or.inl hx
    · rintro (hx | rfl)
      · exact hx
      · exact h
  · simp

theorem nodup_insertSet (s : List String) (y : String) (h : s.Nodup) :
    (insertSet s y).Nodup := by
  unfold insertSet
  split <;> rename_i hy
  · exact h
  · simp [List.nodup_append, h, hy]

theorem mem_foldl_insertSet (l init : List String) (x : String) :
    x ∈ l.foldl insertSet init ↔ x ∈ init ∨ x ∈ l := by
  induction l generalizing init with
  | nil => simp
  | cons a as ih =>
    rw [List.foldl_cons, ih, mem_insertSet]
    simp [or_assoc, or_comm, or_left_comm]

theorem nodup_foldl_insertSet (l init : List String) (h : init.Nodup) :
    (l.foldl insertSet init).Nodup := by
  induction l generalizing init with
  | nil => exact h
  | cons a as ih => exact ih _ (nodup_insertSet _ _ h)

/-! ## The candidate test-type set -/

theorem snd_select_test_type (sc : SelectiveChecks) (tt : List String)
    (t : SelectiveUnitTestTypes) :
    (select_test_type_if_matching sc tt t).2 = sc.matching_test_files t := by
  simp only [select_test_type_if_matching]
  split <;> rfl

theorem mem_fst_select_test_type (sc : SelectiveChecks) (tt : List String)
    (t : SelectiveUnitTestTypes) (x : String) :
    x ∈ (select_test_type_if_matching sc tt t).1 ↔
      x ∈ tt ∨ (spec_group_matches sc t = true ∧ x = t.value) := by
  simp only [select_test_type_if_matching]
  split <;> rename_i h
  · rw [gt_iff_lt, matching_test_files_length_pos] at h
    rw [mem_insertSet]
    simp [h]
  · rw [gt_iff_lt, matching_test_files_length_pos] at h
    simp [h]

theorem nodup_fst_select_test_type (sc : SelectiveChecks) (tt : List String)
    (t : SelectiveUnitTestTypes) (h : tt.Nodup) :
    (select_test_type_if_matching sc tt t).1.Nodup := by
  simp only [select_test_type_if_matching]
  split
  · exact nodup_insertSet _ _ h
  · exact h

theorem contains_iff_mem (l : List String) (a : String) : l.contains a = true ↔ a ∈ l := by
  simp

theorem remaining_files_length_pos (sc : SelectiveChecks) :
    0 < (((sc.matching_files FileGroupForCi.ALL_SOURCE_FILES).filter
        (fun f => !((sc.matching_test_files SelectiveUnitTestTypes.WWW
            ++ sc.matching_test_files SelectiveUnitTestTypes.PROVIDERS
            ++ sc.matching_test_files SelectiveUnitTestTypes.CLI
            ++ sc.matching_test_files SelectiveUnitTestTypes.API).contains f)
          && !((sc.matching_files FileGroupForCi.KUBERNETES_FILES).contains f))).dedup).length
      ↔ spec_unattributed_file_exists sc = true := by
  rw [dedup_length_pos, filter_length_pos]
  unfold spec_unattributed_file_exists
  rw [List.any_eq_true, List.any_eq_true]
  constructor
  · rintro ⟨f, hf, hcond⟩
    simp only [Bool.and_eq_true, Bool.not_eq_true'] at hcond
    rw [mem_matching_files] at hf
    refine ⟨f, hf.1, ?_⟩
    simp only [Bool.and_eq_true, Bool.not_eq_true']
    refine ⟨⟨hf.2, ?_⟩, ?_⟩
    · rw [Bool.eq_false_iff]
      intro hany
      rw [List.any_eq_true] at hany
      obtain ⟨t, ht, hmatch⟩ := hany
      have hfmem : f ∈ sc.matching_test_files t :=
        (mem_matching_test_files sc t f).mpr ⟨hf.1, hmatch⟩
      have hc := hcond.1
      rw [Bool.eq_false_iff] at hc
      apply hc
      rw [contains_iff_mem]
      simp only [List.mem_append]
      fin_cases ht <;> tauto
    · rw [Bool.eq_false_iff]
      intro hany
      have hc := hcond.2
      rw [Bool.eq_false_iff] at hc
      exact hc ((contains_iff_mem _ _).mpr ((mem_matching_files sc _ f).mpr ⟨hf.1, hany⟩))
  · rintro ⟨f, hf, hcond⟩
    simp only [Bool.and_eq_true, Bool.not_eq_true'] at hcond
    obtain ⟨⟨hsrc, hnotest⟩, hnokube⟩ := hcond
    refine ⟨f, (mem_matching_files sc _ f).mpr ⟨hf, hsrc⟩, ?_⟩
    simp only [Bool.and_eq_true, Bool.not_eq_true']
    constructor
    · rw [Bool.eq_false_iff]
      intro hc
      rw [contains_iff_mem] at hc
      simp only [List.mem_append] at hc
      have hany : allTestTypeGroups.any
          (fun t => (TEST_TYPE_MATCHES t).any (fun regexp => pyMatch regexp f)) = true := by
        rw [List.any_eq_true]
        rcases hc with ((hc | hc) | hc) | hc <;>
          exact ⟨_, by simp [allTestTypeGroups], ((mem_matching_test_files sc _ f).mp hc).2⟩
      rw [hnotest] at hany
      exact Bool.false_ne_true hany
    · rw [Bool.eq_false_iff]
      intro hc
      rw [contains_iff_mem, mem_matching_files] at hc
      rw [hc.2] at hnokube
      exact absurd hnokube (by simp)

theorem mem_get_test_types_to_run (c : GlobalConstants) (sc : SelectiveChecks) (x : String) :
    x ∈ get_test_types_to_run c sc ↔
      (x = "Always"
        ∨ (spec_group_matches sc SelectiveUnitTestTypes.WWW = true ∧ x = "WWW")
        ∨ (spec_group_matches sc SelectiveUnitTestTypes.PROVIDERS = true ∧ x = "Providers")
        ∨ (spec_group_matches sc SelectiveUnitTestTypes.CLI = true ∧ x = "CLI")
        ∨ (spec_group_matches sc SelectiveUnitTestTypes.API = true ∧ x = "API")
        ∨ (spec_unattributed_file_exists sc = true ∧ x ∈ c.all_selective_test_types)) := by
  unfold get_test_types_to_run
  simp only [snd_select_test_type]
  rw [mem_pySorted]
  split <;> rename_i h
  · rw [gt_iff_lt, remaining_files_length_pos] at h
    rw [mem_foldl_insertSet]
    rw [mem_fst_select_test_type, mem_fst_select_test_type, mem_fst_select_test_type,
      mem_fst_select_test_type]
    simp [SelectiveUnitTestTypes.value, h]
    tauto
  · rw [gt_iff_lt, remaining_files_length_pos] at h
    have h2 : spec_unattributed_file_exists sc = false := by
      rw [Bool.eq_false_iff]
      exact h
    rw [mem_fst_select_test_type, mem_fst_select_test_type, mem_fst_select_test_type,
      mem_fst_select_test_type]
    simp [SelectiveUnitTestTypes.value, h2]
    tauto

theorem nodup_get_test_types_to_run (c : GlobalConstants) (sc : SelectiveChecks) :
    (get_test_types_to_run c sc).Nodup := by
  unfold get_test_types_to_run
  apply nodup_pySorted
  have h0 : ([("Always" : String)]).Nodup := by simp
  have h4 := nodup_fst_select_test_type sc _ SelectiveUnitTestTypes.API
    (nodup_fst_select_test_type sc _ SelectiveUnitTestTypes.CLI
      (nodup_fst_select_test_type sc _ SelectiveUnitTestTypes.PROVIDERS
        (nodup_fst_select_test_type sc _ SelectiveUnitTestTypes.WWW h0)))
  split
  · exact nodup_foldl_insertSet _ _ h4
  · exact h4

/-! ## The claim-side test-type set -/

theorem mem_spec_test_types_set (c : GlobalConstants) (sc : SelectiveChecks) (x : String) :
    x ∈ spec_test_types_set c sc ↔
      (x = "Always"
        ∨ (spec_group_matches sc SelectiveUnitTestTypes.WWW = true ∧ x = "WWW")
        ∨ (spec_group_matches sc SelectiveUnitTestTypes.PROVIDERS = true ∧ x = "Providers")
        ∨ (spec_group_matches sc SelectiveUnitTestTypes.CLI = true ∧ x = "CLI")
        ∨ (spec_group_matches sc SelectiveUnitTestTypes.API = true ∧ x = "API")
        ∨ (spec_unattributed_file_exists sc = true ∧ x ∈ c.all_selective_test_types)) := by
  unfold spec_test_types_set
  rw [List.mem_dedup]
  split <;> rename_i h <;>
    simp only [List.mem_append, List.mem_singleton, List.mem_map, List.mem_filter,
      allTestTypeGroups, List.mem_cons, List.not_mem_nil, or_false, h] <;>
    constructor
  · rintro ((hx | ⟨t, ⟨ht, hmatch⟩, hval⟩) | hcat)
    · tauto
    · rcases ht with rfl | rfl | rfl | rfl
      · subst hval; tauto
      · subst hval; tauto
      · subst hval; tauto
      · subst hval; tauto
    · tauto
  · rintro (hx | ⟨hm, rfl⟩ | ⟨hm, rfl⟩ | ⟨hm, rfl⟩ | ⟨hm, rfl⟩ | ⟨_, hcat⟩)
    · tauto
    · exact Or.inl (Or.inr ⟨SelectiveUnitTestTypes.WWW, ⟨by tauto, hm⟩, rfl⟩)
    · exact Or.inl (Or.inr ⟨SelectiveUnitTestTypes.PROVIDERS, ⟨by tauto, hm⟩, rfl⟩)
    · exact Or.inl (Or.inr ⟨SelectiveUnitTestTypes.CLI, ⟨by tauto, hm⟩, rfl⟩)
    · exact Or.inl (Or.inr ⟨SelectiveUnitTestTypes.API, ⟨by tauto, hm⟩, rfl⟩)
    · exact Or.inr hcat
  · rintro (hx | ⟨t, ⟨ht, hmatch⟩, hval⟩)
    · tauto
    · rcases ht with rfl | rfl | rfl | rfl
      · subst hval; tauto
      · subst hval; tauto
      · subst hval; tauto
      · subst hval; tauto
  · rintro (hx | ⟨hm, rfl⟩ | ⟨hm, rfl⟩ | ⟨hm, rfl⟩ | ⟨hm, rfl⟩ | ⟨hun, _⟩)
    · tauto
    · exact Or.inr ⟨SelectiveUnitTestTypes.WWW, ⟨by tauto, hm⟩, rfl⟩
    · exact Or.inr ⟨SelectiveUnitTestTypes.PROVIDERS, ⟨by tauto, hm⟩, rfl⟩
    · exact Or.inr ⟨SelectiveUnitTestTypes.CLI, ⟨by tauto, hm⟩, rfl⟩
    · exact Or.inr ⟨SelectiveUnitTestTypes.API, ⟨by tauto, hm⟩, rfl⟩
    · exact absurd hun (by simp)

theorem nodup_spec_test_types_set (c : GlobalConstants) (sc : SelectiveChecks) :
    (spec_test_types_set c sc).Nodup := by
  unfold spec_test_types_set
  exact List.nodup_dedup _

/-! ## The branch filter on test types -/

theorem nodup_current_test_types (c : GlobalConstants) (sc : SelectiveChecks)
    (hcat : c.all_selective_test_types.Nodup) : (current_test_types c sc).Nodup := by
  unfold current_test_types
  split
  · exact hcat
  · exact nodup_get_test_types_to_run c sc

theorem current_test_types_of_not_run_everything (c : GlobalConstants) (sc : SelectiveChecks)
    (h : run_everything sc = false) : current_test_types c sc = get_test_types_to_run c sc := by
  simp [current_test_types, h]

theorem nodup_branch_filtered_test_types (c : GlobalConstants) (sc : SelectiveChecks)
    (h : (current_test_types c sc).Nodup) : (branch_filtered_test_types c sc).Nodup := by
  unfold branch_filtered_test_types
  split
  · split
    · exact List.Nodup.erase _ h
    · exact h
  · exact h

theorem mem_branch_filtered_test_types (c : GlobalConstants) (sc : SelectiveChecks) (x : String)
    (h : (current_test_types c sc).Nodup) :
    x ∈ branch_filtered_test_types c sc ↔
      x ∈ current_test_types c sc ∧ (sc.default_branch ≠ "main" → x ≠ "Providers") := by
  unfold branch_filtered_test_types
  split <;> rename_i hb
  · split <;> rename_i hc
    · rw [List.Nodup.mem_erase_iff h]
      constructor
      · rintro ⟨hne, hx⟩
        exact ⟨hx, fun _ => hne⟩
      · rintro ⟨hx, himp⟩
        exact ⟨himp hb, hx⟩
    · have hnp : "Providers" ∉ current_test_types c sc := by
        rw [← contains_iff_mem]
        simpa using hc
      constructor
      · intro hx
        refine ⟨hx, fun _ hxp => hnp ?_⟩
        rw [← hxp]
        exact hx
      · exact fun hx => hx.1
  · constructor
    · intro hx
      exact ⟨hx, fun hb2 => absurd hb2 hb⟩
    · exact fun hx => hx.1

/-! ## Characterisation of `full_tests_needed` -/

theorem full_tests_needed_iff (sc : SelectiveChecks) :
    full_tests_needed sc = true ↔
      (sc.github_event = GithubEvents.PUSH ∨ sc.github_event = GithubEvents.SCHEDULE
        ∨ FULL_TESTS_NEEDED_LABEL ∈ sc.pr_labels) := by
  unfold full_tests_needed
  split <;> rename_i h1
  · have hmem : sc.github_event ∈ [GithubEvents.PUSH, GithubEvents.SCHEDULE] := by
      simpa using h1
    simp only [List.mem_cons, List.not_mem_nil, or_false] at hmem
    simp only [true_iff]
    tauto
  · have hm1 : sc.github_event ∉ [GithubEvents.PUSH, GithubEvents.SCHEDULE] := by
      simpa using h1
    simp only [List.mem_cons, List.not_mem_nil, or_false, not_or] at hm1
    split <;> rename_i h2
    · have hmem : FULL_TESTS_NEEDED_LABEL ∈ sc.pr_labels := by simpa using h2
      simp only [true_iff]
      tauto
    · have hm2 : FULL_TESTS_NEEDED_LABEL ∉ sc.pr_labels := by simpa using h2
      simp [hm1.1, hm1.2, hm2]

/-! ## Sanity checks of the regex engine against `re.match` -/

example : pyMatch "^airflow/api" "airflow/api/foo.py" = true := by decide

example : pyMatch "^airflow/api" "airflow/apixyz" = true := by decide

example : pyMatch "^airflow/.*\\.py$" "airflow/x/y.pyc" = false := by decide

example : pyMatch "^airflow/ui/[^/]+\\.json$" "airflow/ui/package.json" = true := by decide

example : pyMatch "^airflow/ui/[^/]+\\.json$" "airflow/ui/sub/package.json" = false := by decide

example : pyMatch "^.github/workflows" "Xgithub/workflows/x" = true := by decide

example : pyMatch "\\.py$" "foo.py" = false := by decide

example : pyMatch "^airflow/www/.*\\.js[x]?$" "airflow/www/static/app.jsx" = true := by decide

/-! ## The claims -/

/-- C1, counterexample to the claim as stated: with `full_tests_needed` false,
`kind_versions` and `helm_versions` still return the full supported lists, not
the single-element default lists the claim requires. -/
theorem kind_helm_versions_not_gated :
    full_tests_needed scQuiet = false
      ∧ kind_versions cW scQuiet ≠ [cW.DEFAULT_KIND_VERSION]
      ∧ helm_versions cW scQuiet ≠ [cW.DEFAULT_HELM_VERSION] := by
  decide

/-- C1 (amended): the python/postgres/mysql/mssql/kubernetes version matrices
return the full supported list when `full_tests_needed` is true and otherwise a
single-element list holding the configured default; `all_python_versions` is
additionally full under `run_everything`; but `kind_versions` and
`helm_versions` return the full supported lists unconditionally. -/
theorem version_matrix_properties (c : GlobalConstants) (sc : SelectiveChecks) :
    (full_tests_needed sc = true →
      python_versions c sc = c.CURRENT_PYTHON_MAJOR_MINOR_VERSIONS
        ∧ postgres_versions c sc = c.CURRENT_POSTGRES_VERSIONS
        ∧ mysql_versions c sc = c.CURRENT_MYSQL_VERSIONS
        ∧ mssql_versions c sc = c.CURRENT_MSSQL_VERSIONS
        ∧ kubernetes_versions c sc = c.CURRENT_KUBERNETES_VERSIONS
        ∧ all_python_versions c sc = c.ALL_PYTHON_MAJOR_MINOR_VERSIONS)
    ∧ (full_tests_needed sc = false →
      python_versions c sc = [c.DEFAULT_PYTHON_MAJOR_MINOR_VERSION]
        ∧ postgres_versions c sc = [c.DEFAULT_POSTGRES_VERSION]
        ∧ mysql_versions c sc = [c.DEFAULT_MYSQL_VERSION]
        ∧ mssql_versions c sc = [c.DEFAULT_MSSQL_VERSION]
        ∧ kubernetes_versions c sc = [c.DEFAULT_KUBERNETES_VERSION])
    ∧ kind_versions c sc = c.CURRENT_KIND_VERSIONS
    ∧ helm_versions c sc = c.CURRENT_HELM_VERSIONS
    ∧ (run_everything sc = true → all_python_versions c sc = c.ALL_PYTHON_MAJOR_MINOR_VERSIONS)
    ∧ (full_tests_needed sc = false → run_everything sc = false →
        all_python_versions c sc = [c.DEFAULT_PYTHON_MAJOR_MINOR_VERSION]) := by
  refine ⟨?_, ?_, rfl, rfl, ?_, ?_⟩
  · intro h
    simp [python_versions, postgres_versions, mysql_versions, mssql_versions,
      kubernetes_versions, all_python_versions, h]
  · intro h
    simp [python_versions, postgres_versions, mysql_versions, mssql_versions,
      kubernetes_versions, h]
  · intro h
    simp [all_python_versions, h]
  · intro h1 h2
    simp [all_python_versions, h1, h2]

/-- Witness for `version_matrix_properties` at a push event. -/
theorem version_matrix_properties_witness :
    python_versions cW scPush = cW.CURRENT_PYTHON_MAJOR_MINOR_VERSIONS
      ∧ kubernetes_versions cW scPush = cW.CURRENT_KUBERNETES_VERSIONS := by
  have h := (version_matrix_properties cW scPush).1 (by decide)
  exact ⟨h.1, h.2.2.2.2.1⟩

/-- C2, counterexample to the claim as stated: over a non-main default branch a
provider-only change yields `test_types = "Always"`, while the claim's
construction (which never removes "Providers") yields "Always Providers",
even though `run_everything` is false and `run_tests` is true. -/
theorem test_types_misses_branch_removal :
    run_everything scProv = false ∧ run_tests scProv = true
      ∧ test_types cW scProv ≠ spec_test_types_as_stated cW scProv
      ∧ test_types cW scProv = "Always"
      ∧ spec_test_types_as_stated cW scProv = "Always Providers" := by
  decide

/-- C2 (amended): when `run_tests` is false, `test_types` is the empty string;
when `run_everything` is false and `run_tests` is true, `test_types` is the
sorted space-joined set built from {"Always"}, the matching test-type groups,
and — exactly when an unattributed source file exists — the full catalogue,
except that "Providers" is removed from the set when the default branch is not
"main". -/
theorem test_types_formula (c : GlobalConstants) (sc : SelectiveChecks) :
    (run_tests sc = false → test_types c sc = "")
    ∧ (run_everything sc = false → run_tests sc = true →
        test_types c sc = spec_test_types_amended c sc) := by
  constructor
  · intro h
    simp [test_types, h]
  · intro hre hrt
    have hcur : current_test_types c sc = get_test_types_to_run c sc :=
      current_test_types_of_not_run_everything c sc hre
    have hnodup : (current_test_types c sc).Nodup := by
      rw [hcur]
      exact nodup_get_test_types_to_run c sc
    simp only [test_types, spec_test_types_amended, hrt, Bool.not_true, Bool.false_eq_true,
      if_false]
    congr 1
    unfold test_types_list
    apply pySorted_eq_of_mem_iff
    · exact nodup_branch_filtered_test_types c sc hnodup
    · split
      · exact List.Nodup.filter _ (nodup_spec_test_types_set c sc)
      · exact nodup_spec_test_types_set c sc
    · intro x
      rw [mem_branch_filtered_test_types c sc x hnodup, hcur, mem_get_test_types_to_run]
      split <;> rename_i hb
      · rw [List.mem_filter, mem_spec_test_types_set]
        constructor
        · rintro ⟨hx, himp⟩
          refine ⟨hx, ?_⟩
          simpa using himp hb
        · rintro ⟨hx, hxp⟩
          refine ⟨hx, fun _ => ?_⟩
          simpa using hxp
      · rw [mem_spec_test_types_set]
        constructor
        · exact fun h => h.1
        · exact fun h => ⟨h, fun hbb => absurd hbb hb⟩

/-- Witness for `test_types_formula` on the API-file scenario over a non-main
branch. -/
theorem test_types_formula_witness :
    test_types cW (scApi "v2-2") = spec_test_types_amended cW (scApi "v2-2") :=
  (test_types_formula cW (scApi "v2-2")).2 (by decide) (by decide)

/-- C3: over a non-main default branch, "Providers" never occurs among the test
types (for any duplicate-free catalogue); and in the scenario
`files = ["airflow/api/foo.py"]`, commit ref "abc", no labels, pull-request
event, the test types include "API" and "Always", with "Providers" present only
if the branch is "main". -/
theorem providers_removed_on_non_main :
    (∀ (c : GlobalConstants) (sc : SelectiveChecks), c.all_selective_test_types.Nodup →
        sc.default_branch ≠ "main" → "Providers" ∉ test_types_list c sc)
    ∧ (∀ c : GlobalConstants,
        "API" ∈ test_types_list c (scApi "main") ∧ "Always" ∈ test_types_list c (scApi "main"))
    ∧ (∀ (c : GlobalConstants) (branch : String),
        "Providers" ∈ test_types_list c (scApi branch) → branch = "main") := by
  have hlist : ∀ (c : GlobalConstants) (branch : String),
      test_types_list c (scApi branch) = ["API", "Always"] := by
    intro c branch
    have hcur : current_test_types c (scApi branch) = ["API", "Always"] := rfl
    unfold test_types_list branch_filtered_test_types
    rw [hcur]
    split
    · rfl
    · rfl
  refine ⟨?_, ?_, ?_⟩
  · intro c sc hcat hb
    unfold test_types_list
    rw [mem_pySorted]
    have hnodup := nodup_current_test_types c sc hcat
    unfold branch_filtered_test_types
    rw [if_pos hb]
    split <;> rename_i hc
    · exact List.Nodup.not_mem_erase hnodup
    · intro hmem
      have : (current_test_types c sc).contains "Providers" = true := by
        rw [contains_iff_mem]
        exact hmem
      exact hc this
  · intro c
    rw [hlist c "main"]
    exact ⟨by simp, by simp⟩
  · intro c branch hmem
    rw [hlist c branch] at hmem
    exact absurd hmem (by decide)

/-- Witness for `providers_removed_on_non_main` on a concrete non-main branch. -/
theorem providers_removed_on_non_main_witness :
    "Providers" ∉ test_types_list cW scProv :=
  providers_removed_on_non_main.1 cW scProv (by decide) (by decide)

/-- C4, counterexample to the claim as stated: a run context whose commit
reference is supplied but empty has `run_everything` true although the
reference is not absent, `full_tests_needed` is false and no file matches the
environment group. -/
theorem run_everything_characterization_cex :
    run_everything scEmptyRef = true ∧ scEmptyRef.commit_ref ≠ none
      ∧ full_tests_needed scEmptyRef = false
      ∧ scEmptyRef.matching_files FileGroupForCi.ENVIRONMENT_FILES = [] := by
  decide

/-- C4 (amended): `run_everything` is true exactly when the commit reference is
missing or empty (Python-falsy), or `full_tests_needed` is true, or some
changed file matches the environment/CI-infrastructure group; in particular it
is true whenever the commit reference is absent. -/
theorem run_everything_characterization (sc : SelectiveChecks) :
    (run_everything sc = true ↔
      (commitRefFalsy sc.commit_ref = true ∨ full_tests_needed sc = true
        ∨ sc.matching_files FileGroupForCi.ENVIRONMENT_FILES ≠ []))
    ∧ (sc.commit_ref = none → run_everything sc = true) := by
  constructor
  · unfold run_everything
    split <;> rename_i h1
    · simp [h1]
    · split <;> rename_i h2
      · simp [h2]
      · split <;> rename_i h3
        · rw [gt_iff_lt, List.length_pos] at h3
          simp [h3]
        · rw [gt_iff_lt, List.length_pos] at h3
          push_neg at h3
          have e1 : commitRefFalsy sc.commit_ref = false := by
            rw [Bool.eq_false_iff]; exact h1
          have e2 : full_tests_needed sc = false := by
            rw [Bool.eq_false_iff]; exact h2
          simp [e1, e2, h3]
  · intro h
    unfold run_everything
    rw [h]
    rfl

/-- Witness for `run_everything_characterization` with an absent commit
reference. -/
theorem run_everything_characterization_witness : run_everything scNoRef = true :=
  (run_everything_characterization scNoRef).2 rfl

/-- C5, counterexample to the claim as stated: with zero changed files, a
supplied (non-empty) commit reference and the pull-request event — an event
that does not force full tests — the "full tests needed" label still makes
`run_everything` true and every per-area gate true; and a supplied-but-empty
commit reference does the same even without any label. -/
theorem should_run_gate_cex :
    scLabelled.files = [] ∧ scLabelled.commit_ref = some "abc"
      ∧ scLabelled.github_event = GithubEvents.PULL_REQUEST
      ∧ run_everything scLabelled = true
      ∧ should_be_run scLabelled FileGroupForCi.HELM_FILES = true
      ∧ scEmptyRef.files = [] ∧ scEmptyRef.github_event = GithubEvents.PULL_REQUEST
      ∧ full_tests_needed scEmptyRef = false ∧ run_everything scEmptyRef = true := by
  decide

/-- C5 (amended): `should_run(area)` is true exactly when `run_everything` is
true or some changed file matches the area; and for every run context with zero
changed files, a non-falsy commit reference and `full_tests_needed` false,
`run_everything` is false and every per-area gate is false. -/
theorem should_run_characterization (sc : SelectiveChecks) (area : FileGroupForCi) :
    (should_be_run sc area = true ↔
      (run_everything sc = true ∨ sc.matching_files area ≠ []))
    ∧ (sc.files = [] → commitRefFalsy sc.commit_ref = false → full_tests_needed sc = false →
        run_everything sc = false ∧ ∀ a : FileGroupForCi, should_be_run sc a = false) := by
  constructor
  · unfold should_be_run
    split <;> rename_i h
    · simp [h]
    · split <;> rename_i h2
      · rw [gt_iff_lt, List.length_pos] at h2
        simp [h2]
      · rw [gt_iff_lt, List.length_pos] at h2
        push_neg at h2
        have e1 : run_everything sc = false := by
          rw [Bool.eq_false_iff]; exact h
        simp [e1, h2]
  · intro hf hc hfull
    have hmf : ∀ g, sc.matching_files g = [] := fun g => matching_files_empty sc g hf
    have hre : run_everything sc = false := by
      unfold run_everything
      simp [hc, hfull, hmf]
    refine ⟨hre, fun a => ?_⟩
    unfold should_be_run
    simp [hre, hmf]

/-- Witness for `should_run_characterization` on the quiet pull request. -/
theorem should_run_characterization_witness :
    run_everything scQuiet = false
      ∧ should_be_run scQuiet FileGroupForCi.HELM_FILES = false := by
  have h := (should_run_characterization scQuiet FileGroupForCi.HELM_FILES).2 rfl rfl rfl
  exact ⟨h.1, h.2 FileGroupForCi.HELM_FILES⟩

/-- C6: `full_tests_needed` is true exactly when the event is push or schedule
or the "full tests needed" label is present; in particular push/schedule events
force it and make `python_versions` the full supported list. -/
theorem full_tests_needed_characterization (c : GlobalConstants) (sc : SelectiveChecks) :
    (full_tests_needed sc = true ↔
      (sc.github_event = GithubEvents.PUSH ∨ sc.github_event = GithubEvents.SCHEDULE
        ∨ FULL_TESTS_NEEDED_LABEL ∈ sc.pr_labels))
    ∧ ((sc.github_event = GithubEvents.PUSH ∨ sc.github_event = GithubEvents.SCHEDULE) →
        full_tests_needed sc = true
          ∧ python_versions c sc = c.CURRENT_PYTHON_MAJOR_MINOR_VERSIONS) := by
  refine ⟨full_tests_needed_iff sc, fun h => ?_⟩
  have hft : full_tests_needed sc = true := (full_tests_needed_iff sc).mpr (by tauto)
  exact ⟨hft, by simp [python_versions, hft]⟩

/-- Witness for `full_tests_needed_characterization` at a push event. -/
theorem full_tests_needed_characterization_witness :
    full_tests_needed scPush = true
      ∧ python_versions cW scPush = cW.CURRENT_PYTHON_MAJOR_MINOR_VERSIONS :=
  (full_tests_needed_characterization cW scPush).2 (Or.inl rfl)

/-- C7: the file classifier returns exactly the filter of the changed-file list
by "some pattern of the group matches", for file groups and test-type groups
alike; the result is an ordered subsequence of the input, duplicate-free when
the input is, and empty when the changed-file list is empty. -/
theorem matching_files_filter (sc : SelectiveChecks) (g : FileGroupForCi)
    (t : SelectiveUnitTestTypes) :
    sc.matching_files g
        = sc.files.filter (fun f => (CI_FILE_GROUP_MATCHES g).any (fun regexp => pyMatch regexp f))
      ∧ sc.matching_test_files t
        = sc.files.filter (fun f => (TEST_TYPE_MATCHES t).any (fun regexp => pyMatch regexp f))
      ∧ List.Sublist (sc.matching_files g) sc.files
      ∧ (sc.files.Nodup → (sc.matching_files g).Nodup ∧ (sc.matching_test_files t).Nodup)
      ∧ (sc.files = [] → sc.matching_files g = [] ∧ sc.matching_test_files t = []) := by
  refine ⟨matching_files_eq_filter sc g, matching_test_files_eq_filter sc t, ?_, ?_, ?_⟩
  · rw [matching_files_eq_filter]
    exact List.filter_sublist _
  · intro h
    constructor
    · rw [matching_files_eq_filter]
      exact List.Nodup.filter _ h
    · rw [matching_test_files_eq_filter]
      exact List.Nodup.filter _ h
  · intro h
    refine ⟨matching_files_empty sc g h, ?_⟩
    rw [matching_test_files_eq_filter, h]
    rfl

/-- Witness for `matching_files_filter` on the API scenario. -/
theorem matching_files_filter_witness :
    ((scApi "main").matching_files FileGroupForCi.API_TEST_FILES).Nodup :=
  ((matching_files_filter (scApi "main") FileGroupForCi.API_TEST_FILES
    SelectiveUnitTestTypes.API).2.2.2.1 (by decide)).1

/-- C8: `image_build` is the disjunction of the test gate, the docs gate and
the Kubernetes gate, and `basic_checks_only` is its negation. -/
theorem image_build_basic_checks (sc : SelectiveChecks) :
    image_build sc = (run_tests sc || docs_build sc || run_kubernetes_tests sc)
      ∧ basic_checks_only sc = !image_build sc
      ∧ basic_checks_only sc = !(run_tests sc || docs_build sc || run_kubernetes_tests sc) :=
  ⟨rfl, rfl, rfl⟩

/-- C9: the output formatter renders `::set-output name=<dashed-name>::<value>`,
lower-casing booleans to "true"/"false" and passing other values through
unchanged. -/
theorem get_ga_output_rendering (name : String) (b : Bool) (s : String) :
    get_ga_output name (PyValue.bool b)
        = "::set-output name=" ++ name.replace "_" "-" ++ "::"
            ++ (if b then "true" else "false")
      ∧ get_ga_output name (PyValue.str s)
        = "::set-output name=" ++ name.replace "_" "-" ++ "::" ++ s := by
  constructor
  · cases b <;> rfl
  · rfl

/-- C10: a commit reference that is supplied but equal to the empty string
triggers `run_everything`, exactly like an absent reference: the check tests
Python falsiness, not absence. -/
theorem run_everything_empty_string_commit_ref (files : List String) (branch : String)
    (labels : List String) (event : GithubEvents) :
    run_everything ⟨files, branch, some "", labels, event⟩ = true := by
  unfold run_everything
  rfl

end AirflowBreeze

